import Mathlib

/-!
# Verification of the blender-logo-render orchestration layer

Shallow embedding of the request-orchestration code of the repository
(`server.py`, `rp_handler.py`, `s3_utils.py`, and the subprocess-facing
parts of `render_logo.py`) together with proofs about its validation,
cleanup, invocation and error-reporting behaviour.

External effects (base64 library calls, the filesystem, subprocesses,
object storage, environment variables) are supplied by explicit
environment records; the control flow of each Python function is
translated branch for branch.  Each embedded entry point returns its
Python return value together with a trace of the externally observable
effects (processes started, temporary files created/removed).
-/

namespace BlenderRender

/-- Byte strings (results of `base64.b64decode`, file contents). -/
abbrev Bytes := List Nat

/-- Outcome of a `subprocess.run` call: either `subprocess.TimeoutExpired`
is raised, or the call returns a completed process with a return code,
stdout and stderr. -/
inductive RunOutcome where
  | timeout
  | finished (returncode : Int) (stdout : String) (stderr : String)
deriving DecidableEq, Repr

/-- One recorded external process invocation: the argument vector passed to
`subprocess.run` and the `timeout=` keyword (none when no timeout was given). -/
structure Proc where
  cmd : List String
  timeoutSec : Option Nat
deriving DecidableEq, Repr

/-- `os.path.join` for the two-argument uses in this code base. -/
def pathJoin (a b : String) : String := a ++ "/" ++ b

/-- Python `s.startswith(pre)`, computed on the underlying character
lists (kernel-reducible, equivalent to `String.startsWith`). -/
def strStartsWith (s pre : String) : Bool := pre.toList.isPrefixOf s.toList

/-- Python `s.endswith(suf)`, computed on the underlying character lists. -/
def strEndsWith (s suf : String) : Bool := suf.toList.isSuffixOf s.toList

/-- Occurrence of `pat` as a contiguous sublist. -/
def isInfixOfChars (pat : List Char) : List Char → Bool
  | [] => pat.isEmpty
  | c :: rest => pat.isPrefixOf (c :: rest) || isInfixOfChars pat rest

/-- Python `pat in s` (substring occurrence), computed on the underlying
character lists. -/
def strContains (s pat : String) : Bool := isInfixOfChars pat.toList s.toList

/-- ASCII lowering of one character (the case relevant to the embedded
code, whose inputs are ASCII command-line tokens). -/
def charToLower (c : Char) : Char :=
  if 65 ≤ c.toNat ∧ c.toNat ≤ 90 then Char.ofNat (c.toNat + 32) else c

/-- Python `s.lower()` on ASCII strings, computed on the character list. -/
def strToLower (s : String) : String := String.mk (s.toList.map charToLower)

/-- Python `s.split(',')[1]`: defined exactly when `s` contains a comma
(otherwise the indexing raises `IndexError`), and then equal to the text
between the first comma and the following comma or end of string. -/
def pySplitCommaIndexOne (s : String) : Option String :=
  let cs := s.toList
  if cs.contains ',' then
    some (String.mk (((cs.dropWhile (fun c => c ≠ ',')).drop 1).takeWhile
      (fun c => c ≠ ',')))
  else none

/-- The data-URL stripping done before decoding in both `server.py` (lines
76-79) and `rp_handler.py` (lines 39-41):
`if logo.startswith('data:'): logo = logo.split(',')[1]`.
Returns `none` when the `[1]` indexing raises `IndexError` (no comma). -/
def stripDataUrl (logo : String) : Option String :=
  if strStartsWith logo "data:" then pySplitCommaIndexOne logo else some logo

/-- The exact rational `1/d` (normal form by construction; `0` for `d = 0`).
Used for the decimal literals of the Python sources, whose values are
exactly representable: `0.01 = oneOver 100`, `0.1 = oneOver 10`,
`0.02 = oneOver 50`. -/
def oneOver (d : Nat) : ℚ :=
  if h : d = 0 then 0 else ⟨1, d, h, Nat.coprime_one_left d⟩

/-- The base64 alphabet used by `base64.b64encode`. -/
def b64alphabet : List Char :=
  "ABCDEFGHIJKLMNOPQRSTUVWXYZabcdefghijklmnopqrstuvwxyz0123456789+/".toList

/-- Model of `base64.b64encode(...).decode('utf-8')`: standard base64 with
padding over bytes taken mod 256. -/
def b64encodeChars : Bytes → List Char
  | [] => []
  | [a] =>
    let a := a % 256
    [b64alphabet.getD (a / 4) 'A', b64alphabet.getD (a % 4 * 16) 'A', '=', '=']
  | [a, b] =>
    let a := a % 256
    let b := b % 256
    [b64alphabet.getD (a / 4) 'A', b64alphabet.getD (a % 4 * 16 + b / 16) 'A',
     b64alphabet.getD (b % 16 * 4) 'A', '=']
  | a :: b :: c :: rest =>
    let a := a % 256
    let b := b % 256
    let c := c % 256
    b64alphabet.getD (a / 4) 'A' :: b64alphabet.getD (a % 4 * 16 + b / 16) 'A' ::
      b64alphabet.getD (b % 16 * 4 + c / 64) 'A' :: b64alphabet.getD (c % 64) 'A' ::
      b64encodeChars rest

/-- String form of `base64.b64encode(data).decode('utf-8')`. -/
def b64encode (bs : Bytes) : String := String.mk (b64encodeChars bs)

/-- Lexicographic comparison of character lists by code point
(kernel-reducible model of Python string ordering). -/
def charsLt : List Char → List Char → Bool
  | [], [] => false
  | [], _ :: _ => true
  | _ :: _, [] => false
  | a :: as, b :: bs =>
    if a.toNat < b.toNat then true
    else if b.toNat < a.toNat then false
    else charsLt as bs

/-- Insert a string into a sorted list (helper for `sortStrings`). -/
def insertStr (x : String) : List String → List String
  | [] => [x]
  | y :: ys => if charsLt x.toList y.toList then x :: y :: ys else y :: insertStr x ys

/-- Python's `list.sort()` on strings (insertion sort; only the multiset of
elements and the ordering matter to the embedded code). -/
def sortStrings : List String → List String
  | [] => []
  | x :: xs => insertStr x (sortStrings xs)

/-- The material presets accepted by both entry points
(`server.py` line 59, `rp_handler.py` line 33). -/
def valid_materials : List String :=
  ["flat", "glossy", "matte", "metallic", "chrome", "golden"]

/-- A file name is a rendered frame when it matches the
`file.startswith("frame_") and file.endswith(".png")` test used throughout. -/
def isFrameFile (f : String) : Bool := strStartsWith f "frame_" && strEndsWith f ".png"

end BlenderRender

namespace BlenderRender.S3

/-- Environment for `S3Uploader`: whether a `delete_object` call for a given
key succeeds (`true`) or raises `botocore.exceptions.ClientError` (`false`). -/
structure S3Env where
  deleteOk : String → Bool

/-- `S3Uploader.delete_user_video` (`s3_utils.py` lines 124-143).  Returns the
Python boolean result together with the list of S3 keys for which a
`delete_object` request was actually issued (a request that raises
`ClientError` was still issued). -/
def delete_user_video (env : S3Env) (user_id s3_key : String) : Bool × List String :=
  if ¬ strStartsWith s3_key ("users/" ++ user_id ++ "/") then
    (false, [])
  else if env.deleteOk s3_key then
    (true, [s3_key])
  else
    (false, [s3_key])

end BlenderRender.S3

namespace BlenderRender.Server

open BlenderRender

/-- The `/render` form parameters of `server.py` (lines 43-49), with the
declared defaults.  Depths are modelled as exact rationals. -/
structure ServerRequest where
  logo : String
  material : String := "golden"
  extrude_depth : ℚ := oneOver 10
  bevel_depth : ℚ := oneOver 50
  user_id : Option String := none
  job_id : Option String := none

/-- The dict returned by `S3Uploader.upload_video` (`s3_utils.py` lines 62-85):
`success`, `url`, `presigned_url`, `s3_key`, `error` (absent values are `None`). -/
structure UploadResult where
  success : Bool
  url : Option String
  presigned_url : Option String
  s3_key : Option String
  error : Option String
deriving DecidableEq, Repr

/-- External world as seen by `server.py`'s `render_logo`:
library calls, filesystem probes, subprocess outcomes, S3 configuration.
`getenvBlenderTimeout` is the parsed `BLENDER_TIMEOUT_SECONDS` environment
variable; `server.py` never reads it (its render timeout is the literal
`300` at line 138). -/
structure ServerEnv where
  b64decode : String → Except String Bytes
  pathExists : String → Bool
  tempDirName : String
  logoFileName : String
  cwd : String
  run : List String → Option Nat → RunOutcome
  s3Configured : Bool
  upload : UploadResult
  getenvBlenderTimeout : Option Nat

/-- Externally observable effects of one `/render` request. -/
structure ServerTrace where
  procs : List Proc
  tempDirRemoved : Bool
  logoFileCreated : Bool
  logoFileRemoved : Bool
  renderRunReturned : Bool
deriving DecidableEq, Repr

/-- The body of `RenderResponse` (`server.py` lines 26-32) on the success
path; `status`/`message` are the literals of lines 168-169. -/
structure RenderResponse where
  status : String
  message : String
  output_url : Option String
  s3_key : Option String
  presigned_url : Option String
deriving DecidableEq, Repr

/-- Result of the endpoint: a 200 `RenderResponse` or a raised
`HTTPException(status_code, detail)`. -/
inductive ServerResult where
  | ok (resp : RenderResponse)
  | httpError (statusCode : Nat) (detail : String)
deriving DecidableEq, Repr

/-- The Blender search paths of `server.py` lines 99-106, in order. -/
def blender_paths : List String :=
  ["/blender-logo-render/blender-4.5.1-linux-x64/blender",
   "/usr/local/bin/blender",
   "/opt/blender-3.6.0-linux-x64/blender",
   "/Applications/Blender.app/Contents/MacOS/Blender",
   "/opt/homebrew/bin/blender",
   "blender"]

/-- The Blender argument vector built at `server.py` lines 124-131. -/
def serverCmd (blender_cmd : String) (env : ServerEnv) (req : ServerRequest) :
    List String :=
  [blender_cmd, "-b", "-P", pathJoin env.cwd "render_logo.py", "--",
   env.logoFileName, env.tempDirName, req.material,
   toString req.extrude_depth, toString req.bevel_depth]

/-- Model of `str(subprocess.TimeoutExpired)` for a command run under a
timeout, as interpolated into the line-184 error message. -/
def timeoutExpiredStr (cmd : List String) (t : Nat) : String :=
  "Command " ++ toString cmd ++ " timed out after " ++ toString t ++ " seconds"

/-- The `try:` body of `render_logo` (`server.py` lines 57-184), translated
branch for branch; the trace starts with the temporary directory created at
line 55 and not yet removed.  The `except Exception` handler at line 182
turns the only uncaught exception we model (`TimeoutExpired` from line 138)
into a 500 `Internal server error`.  `tempfile.mkdtemp` yields an empty
directory, so the frame-clearing loop of lines 94-96 removes nothing. -/
def renderBody (req : ServerRequest) (env : ServerEnv) :
    ServerResult × ServerTrace :=
  let tr0 : ServerTrace :=
    { procs := [], tempDirRemoved := false, logoFileCreated := false,
      logoFileRemoved := false, renderRunReturned := false }
  if ¬ valid_materials.contains req.material then
    (.httpError 400 ("Invalid material. Choose from: " ++ toString valid_materials), tr0)
  else if req.extrude_depth < oneOver 100 ∨ req.extrude_depth > 1 then
    (.httpError 400 "Extrude depth must be between 0.01 and 1.0", tr0)
  else if req.bevel_depth < 0 ∨ req.bevel_depth > oneOver 10 then
    (.httpError 400 "Bevel depth must be between 0.0 and 0.1", tr0)
  else
    match stripDataUrl req.logo with
    | none =>
      -- `logo.split(',')[1]` raised IndexError inside the inner try
      (.httpError 400 "Invalid base64 image data: list index out of range", tr0)
    | some stripped =>
      match env.b64decode stripped with
      | .error e => (.httpError 400 ("Invalid base64 image data: " ++ e), tr0)
      | .ok _image_data =>
        -- lines 89-91: NamedTemporaryFile(delete=False) materializes the logo
        let tr1 := { tr0 with logoFileCreated := true }
        match blender_paths.find? env.pathExists with
        | none => (.httpError 500 "Blender not found. Please install Blender.", tr1)
        | some blender_cmd =>
          let cmd := serverCmd blender_cmd env req
          let tr2 := { tr1 with procs := tr1.procs ++ [⟨cmd, some 300⟩] }
          match env.run cmd (some 300) with
          | .timeout =>
            (.httpError 500 ("Internal server error: " ++ timeoutExpiredStr cmd 300), tr2)
          | .finished returncode _stdout stderr =>
            -- line 141: os.unlink(logo_path)
            let tr3 := { tr2 with renderRunReturned := true, logoFileRemoved := true }
            if returncode ≠ 0 then
              (.httpError 500 ("Render failed: " ++ stderr), tr3)
            else if ¬ env.pathExists (pathJoin env.tempDirName "rendered_animation.mp4") then
              (.httpError 500 "Video file not generated", tr3)
            else if ¬ env.s3Configured then
              (.httpError 500 "S3 uploader not configured", tr3)
            else if env.upload.success then
              (.ok { status := "completed",
                     message := "Render completed successfully and uploaded to S3",
                     output_url := env.upload.url,
                     s3_key := env.upload.s3_key,
                     presigned_url := env.upload.presigned_url }, tr3)
            else
              (.httpError 500
                ("S3 upload failed: " ++ (env.upload.error.getD "None")), tr3)

/-- `render_logo` (`server.py` lines 43-191): the try body followed by the
`finally:` block of lines 185-191, which removes the temporary directory on
every exit path (we model the `shutil.rmtree` as succeeding). -/
def render_logo (req : ServerRequest) (env : ServerEnv) :
    ServerResult × ServerTrace :=
  let body := renderBody req env
  (body.1, { body.2 with tempDirRemoved := true })

end BlenderRender.Server

namespace BlenderRender.Rp

open BlenderRender

/-- The fields read from `event['input']` (`rp_handler.py` lines 18-23) with
their `.get` defaults.  `logo` may be absent (`None`); the depths are the
values after the `float(...)` conversions. -/
structure RpInput where
  logo : Option String := none
  material : String := "golden"
  extrude_depth : ℚ := oneOver 10
  bevel_depth : ℚ := oneOver 50

/-- External world as seen by `rp_handler.py`'s `handler`.
`getenvBlenderTimeout` is the parsed `BLENDER_TIMEOUT_SECONDS` environment
variable (line 29); `outputDirListing0`/`outputDirListing1` are the contents
of `/tmp/output` before the frame-clearing loop and after the render;
`videoData` is what line 144-145 reads from `output.mp4`; `renderTime` is
the wall-clock delta of line 96. -/
structure RpEnv where
  getenvBlenderTimeout : Option Nat
  b64decode : String → Except String Bytes
  logoFileName : String
  outputDirListing0 : List String
  pathExists : String → Bool
  run : List String → Option Nat → RunOutcome
  outputDirListing1 : List String
  videoData : Bytes
  renderTime : ℚ

/-- Externally observable effects of one handler invocation.  The handler
never removes its output directory `/tmp/output` (a fixed shared path
created with `makedirs(..., exist_ok=True)`), so `outputDirRemoved` is
`false` at every leaf; `clearedFrames` are the stale `frame_*.png` files
removed by lines 58-60. -/
structure RpTrace where
  procs : List Proc
  logoFileCreated : Bool
  logoFileRemoved : Bool
  outputDirRemoved : Bool
  clearedFrames : List String
  renderRunReturned : Bool
deriving DecidableEq, Repr

/-- Return value of the handler: the success dict of lines 151-158
(`status`, `message`, `output_url`, `video_size_bytes`,
`render_time_seconds`, `frame_count`) or a dict with an `error` key. -/
inductive RpResult where
  | completed (status : String) (message : String) (output_url : String)
      (video_size_bytes : Nat) (render_time_seconds : ℚ) (frame_count : Nat)
  | errorResp (msg : String)
deriving DecidableEq, Repr

/-- The Blender search paths of `rp_handler.py` lines 63-67, in order. -/
def blender_paths : List String :=
  ["/usr/local/bin/blender", "/opt/blender-3.6.0-linux-x64/blender", "blender"]

/-- `int(os.getenv('BLENDER_TIMEOUT_SECONDS', 1200))` (line 29). -/
def rpTimeout (env : RpEnv) : Nat := env.getenvBlenderTimeout.getD 1200

/-- The Blender argument vector built at `rp_handler.py` lines 81-88. -/
def rpCmd (blender_cmd : String) (env : RpEnv) (input : RpInput) : List String :=
  [blender_cmd, "-b", "-P", "/workspace/render_logo.py", "--",
   env.logoFileName, "/tmp/output", input.material,
   toString input.extrude_depth, toString input.bevel_depth]

/-- The ffmpeg argument vector built at `rp_handler.py` lines 124-132. -/
def rpFfmpegCmd : List String :=
  ["ffmpeg", "-y", "-framerate", "24",
   "-i", pathJoin "/tmp/output" "frame_%04d.png",
   "-c:v", "libx264", "-pix_fmt", "yuv420p", "-crf", "23",
   pathJoin "/tmp/output" "output.mp4"]

/-- The timeout error message of `rp_handler.py` line 162 (it always
interpolates `timeout_seconds`, even when the expired call is the
ffmpeg one run under `timeout=300`). -/
def timeoutMsg (timeout_seconds : Nat) : String :=
  "Render timed out after " ++ toString timeout_seconds ++
    " seconds. Please try with simpler settings or contact support."

/-- `handler` (`rp_handler.py` lines 10-165), translated branch for branch.
An event without a usable `input` dict makes line 18 raise `KeyError`,
caught by the outer `except Exception` (line 163); `str(KeyError('input'))`
is modelled as the key name.  A `None` logo makes `logo.startswith` at
line 40 raise `AttributeError`, caught by the inner `except` at line 45.
A missing comma after a `data:` prefix makes `logo.split(',')[1]` raise
`IndexError`, caught by the same inner `except`. -/
def handler (event : Option RpInput) (env : RpEnv) : RpResult × RpTrace :=
  let tr0 : RpTrace :=
    { procs := [], logoFileCreated := false, logoFileRemoved := false,
      outputDirRemoved := false, clearedFrames := [], renderRunReturned := false }
  match event with
  | none => (.errorResp "Internal server error: input", tr0)
  | some input =>
    let timeout_seconds := rpTimeout env
    if ¬ valid_materials.contains input.material then
      (.errorResp ("Invalid material. Choose from: " ++ toString valid_materials), tr0)
    else
      match input.logo with
      | none =>
        (.errorResp
          "Invalid base64 image data: NoneType object has no attribute startswith", tr0)
      | some logo =>
        match stripDataUrl logo with
        | none =>
          (.errorResp "Invalid base64 image data: list index out of range", tr0)
        | some stripped =>
          match env.b64decode stripped with
          | .error e => (.errorResp ("Invalid base64 image data: " ++ e), tr0)
          | .ok _image_data =>
            -- lines 49-51: NamedTemporaryFile(delete=False)
            -- lines 54-60: makedirs /tmp/output; clear stale frame files
            let tr1 := { tr0 with
                         logoFileCreated := true,
                         clearedFrames := env.outputDirListing0.filter isFrameFile }
            match blender_paths.find? env.pathExists with
            | none => (.errorResp "Blender not found. Please install Blender.", tr1)
            | some blender_cmd =>
              let cmd := rpCmd blender_cmd env input
              let tr2 := { tr1 with procs := tr1.procs ++ [⟨cmd, some timeout_seconds⟩] }
              match env.run cmd (some timeout_seconds) with
              | .timeout => (.errorResp (timeoutMsg timeout_seconds), tr2)
              | .finished returncode _stdout stderr =>
                -- line 100: os.unlink(logo_path)
                let tr3 := { tr2 with renderRunReturned := true, logoFileRemoved := true }
                if returncode ≠ 0 then
                  (.errorResp ("Render failed: " ++ stderr), tr3)
                else
                  let output_files := env.outputDirListing1.filter isFrameFile
                  if output_files.isEmpty then
                    (.errorResp "No output files generated", tr3)
                  else
                    let output_files := sortStrings output_files
                    let tr4 := { tr3 with procs := tr3.procs ++ [⟨rpFfmpegCmd, some 300⟩] }
                    match env.run rpFfmpegCmd (some 300) with
                    | .timeout => (.errorResp (timeoutMsg timeout_seconds), tr4)
                    | .finished frc _fout ferr =>
                      if frc ≠ 0 then
                        (.errorResp ("Video creation failed: " ++ ferr), tr4)
                      else
                        (.completed "completed" "Render completed successfully"
                          ("data:video/mp4;base64," ++ b64encode env.videoData)
                          env.videoData.length env.renderTime output_files.length, tr4)

end BlenderRender.Rp

namespace BlenderRender.Script

open BlenderRender

/-- `argv[argv.index("--") + 1:]` (`render_logo.py` lines 10-11): the
arguments after the `--` separator. -/
def afterDashDash (argv : List String) : List String :=
  (argv.dropWhile (fun a => a ≠ "--")).drop 1

/-- `parse_args` (`render_logo.py` lines 9-18) applied to the post-`--`
argument list: `(svg_path, output_dir, texture_type.lower(), argv[3],
argv[4], transparency)` with `transparency` defaulting to `"opaque"`.
The depth arguments are returned as the strings that lines 15-16 pass to
`float(...)`; the numeric conversion itself belongs to the Python runtime.
Fewer than five arguments make the indexing raise (`none`). -/
def parse_args (argv : List String) :
    Option (String × String × String × String × String × String) :=
  match argv with
  | svg_path :: output_dir :: texture_type :: extrude_depth :: bevel_depth :: rest =>
    some (svg_path, output_dir, strToLower texture_type, extrude_depth, bevel_depth,
          ((rest[0]?).map strToLower).getD "opaque")
  | _ => none

/-- External world as seen by `convert_png_to_webm`:
whether the `ffmpeg -version` probe succeeds, the `frame_*.png` glob
result, and subprocess outcomes.  The interactive PNG-deletion prompt of
lines 440-448 only removes local files, never starts a process, and is not
modelled further. -/
structure FfmpegEnv where
  ffmpegAvailable : Bool
  pngFiles : List String
  run : List String → Option Nat → RunOutcome

/-- The three conversion command variants of `render_logo.py`
lines 372-412, for a given input pattern, fps and output path. -/
def webmCmds (fps : Nat) (input_pattern output_path : String) :
    List (List String) :=
  [["ffmpeg", "-y", "-framerate", toString fps, "-i", input_pattern,
    "-vf", "format=yuva420p", "-c:v", "libvpx-vp9", "-crf", "20",
    "-b:v", "0", "-auto-alt-ref", "0", output_path],
   ["ffmpeg", "-y", "-framerate", toString fps, "-i", input_pattern,
    "-c:v", "libvpx-vp9", "-pix_fmt", "yuva420p",
    "-vf", "premultiply=inplace=1", "-crf", "20",
    "-b:v", "0", "-auto-alt-ref", "0", output_path],
   ["ffmpeg", "-y", "-framerate", toString fps, "-i", input_pattern,
    "-c:v", "libvpx-vp9", "-pix_fmt", "yuva420p", "-crf", "15",
    "-f", "webm", output_path]]

/-- The `for method_name, cmd in commands:` loop of `render_logo.py`
lines 424-462: run each variant under `timeout=300`; on return code 0,
probe the output with `ffmpeg -i` and succeed only when its stderr shows
an alpha pixel format; on a failed attempt (non-zero exit, timeout, no
alpha, or any exception) fall through to the next variant; after the loop,
return `False` (lines 464-469).  Returns the Python boolean and the
accumulated process trace. -/
def tryMethods (env : FfmpegEnv) (output_path : String) :
    List (List String) → List Proc → Bool × List Proc
  | [], acc => (false, acc)
  | cmd :: rest, acc =>
    let acc1 := acc ++ [⟨cmd, some 300⟩]
    match env.run cmd (some 300) with
    | .timeout => tryMethods env output_path rest acc1
    | .finished returncode _stdout _stderr =>
      if returncode = 0 then
        let verify_cmd := ["ffmpeg", "-i", output_path]
        let acc2 := acc1 ++ [⟨verify_cmd, none⟩]
        match env.run verify_cmd none with
        | .timeout => tryMethods env output_path rest acc2
        | .finished _vrc _vout vstderr =>
          if strContains vstderr "yuva420p" then (true, acc2)
          else tryMethods env output_path rest acc2
      else tryMethods env output_path rest acc1

/-- `convert_png_to_webm` (`render_logo.py` lines 341-469): probe for
ffmpeg with `ffmpeg -version` (line 346, no timeout), bail out when the
probe fails or no `frame_*.png` exists, then try the three conversion
variants in order. -/
def convert_png_to_webm (env : FfmpegEnv) (output_dir : String) (fps : Nat) :
    Bool × List Proc :=
  let probe : Proc := ⟨["ffmpeg", "-version"], none⟩
  if ¬ env.ffmpegAvailable then (false, [probe])
  else if env.pngFiles.isEmpty then (false, [probe])
  else
    let input_pattern := pathJoin output_dir "frame_%04d.png"
    let output_path := pathJoin output_dir "rendered_animation_transparent.webm"
    tryMethods env output_path (webmCmds fps input_pattern output_path) [probe]

end BlenderRender.Script

namespace BlenderRender

/-- Failure of the base64 decoding step as both entry points perform it:
either the data-URL split has no element 1, or `base64.b64decode` raises. -/
def decodeFails (dec : String → Except String Bytes) (logo : String) : Bool :=
  match stripDataUrl logo with
  | none => true
  | some s => match dec s with | .error _ => true | .ok _ => false

end BlenderRender

namespace BlenderRender.Exhibits

open BlenderRender BlenderRender.Server BlenderRender.Rp BlenderRender.Script

/-- A successful upload result. -/
def uploadOk : UploadResult :=
  { success := true, url := some "https://bucket/presigned", presigned_url := some "https://bucket/presigned",
    s3_key := some "users/u1/renders/x.mp4", error := none }

/-- A failed upload result with error text `boom`. -/
def uploadBoom : UploadResult :=
  { success := false, url := none, presigned_url := none, s3_key := none,
    error := some "boom" }

/-- A server environment in which decoding succeeds, Blender is found at
`/usr/local/bin/blender`, the render subprocess exits 0, the output video
is present, S3 is configured and the upload succeeds.  The environment
variable `BLENDER_TIMEOUT_SECONDS` is set (parsed value 7). -/
def serverEnvOk : ServerEnv :=
  { b64decode := fun _ => .ok [137, 80, 78, 71],
    pathExists := fun p =>
      p == "/usr/local/bin/blender" || strEndsWith p "rendered_animation.mp4",
    tempDirName := "/tmp/job-a",
    logoFileName := "/tmp/tmplogo.svg",
    cwd := "/srv/app",
    run := fun _ _ => .finished 0 "" "",
    s3Configured := true,
    upload := uploadOk,
    getenvBlenderTimeout := some 7 }

/-- A serverless environment in which decoding succeeds, Blender is found,
both subprocesses exit 0 and two frames are produced.
`BLENDER_TIMEOUT_SECONDS` parses to 7. -/
def rpEnvOk : RpEnv :=
  { getenvBlenderTimeout := some 7,
    b64decode := fun _ => .ok [137, 80, 78, 71],
    logoFileName := "/tmp/tmplogo.svg",
    outputDirListing0 := [],
    pathExists := fun p => p == "/usr/local/bin/blender",
    run := fun _ _ => .finished 0 "" "",
    outputDirListing1 := ["frame_0001.png", "frame_0002.png"],
    videoData := [77, 78],
    renderTime := 3 }

/-- A well-formed request for the HTTP endpoint (defaults, decodable logo). -/
def reqOk : ServerRequest := { logo := "aGk=" }

/-- A well-formed input for the serverless handler. -/
def inputOk : RpInput := { logo := some "aGk=" }

/-- `serverEnvOk`, but the render subprocess exceeds its timeout. -/
def serverEnvTimeout : ServerEnv := { serverEnvOk with run := fun _ _ => .timeout }

/-- `rpEnvOk`, but the render subprocess exceeds its timeout. -/
def rpEnvTimeout : RpEnv := { rpEnvOk with run := fun _ _ => .timeout }

/-- `rpEnvOk`, but the render subprocess exits with status 1. -/
def rpEnvRenderFail : RpEnv :=
  { rpEnvOk with run := fun _ _ => .finished 1 "" "boom" }

/-- `serverEnvOk`, but no Blender installation exists on the filesystem. -/
def serverEnvNoBlender : ServerEnv :=
  { serverEnvOk with pathExists := fun _ => false }

/-- `serverEnvOk` with a failing upload, working directory `/tmp/job-a`. -/
def serverEnvUploadFailA : ServerEnv :=
  { serverEnvOk with tempDirName := "/tmp/job-a", upload := uploadBoom }

/-- `serverEnvOk` with a failing upload, working directory `/tmp/job-b`:
identical to `serverEnvUploadFailA` except for the location of the
locally produced artifact. -/
def serverEnvUploadFailB : ServerEnv :=
  { serverEnvOk with tempDirName := "/tmp/job-b", upload := uploadBoom }

/-- `serverEnvOk`, but `base64.b64decode` raises on every payload. -/
def serverEnvBadB64 : ServerEnv :=
  { serverEnvOk with b64decode := fun _ => .error "Invalid base64-encoded string" }

/-- `rpEnvOk`, but `base64.b64decode` raises on every payload. -/
def rpEnvBadB64 : RpEnv :=
  { rpEnvOk with b64decode := fun _ => .error "Invalid base64-encoded string" }

/-- `serverEnvOk`, but the render exits 0 without producing the video
(only the Blender binary exists on the filesystem). -/
def serverEnvNoVideo : ServerEnv :=
  { serverEnvOk with pathExists := fun p => p == "/usr/local/bin/blender" }

/-- `rpEnvOk`, but the render exits 0 without producing any frame. -/
def rpEnvNoFrames : RpEnv := { rpEnvOk with outputDirListing1 := ["stale.txt"] }

/-- An ffmpeg environment for `convert_png_to_webm` in which ffmpeg exists,
frames exist, and every conversion attempt exits with status 1. -/
def fenvAllFail : FfmpegEnv :=
  { ffmpegAvailable := true, pngFiles := ["frame_0001.png"],
    run := fun _ _ => .finished 1 "" "conversion error" }

end BlenderRender.Exhibits

namespace BlenderRender.Claims

open BlenderRender BlenderRender.Server BlenderRender.Rp BlenderRender.Script
open BlenderRender.Exhibits

/-- Sanity check tying the normal-form constant to the decimal literals of
the Python sources: `oneOver d` is the rational `1/d`. -/
theorem oneOver_eq_one_div (d : Nat) (h : d ≠ 0) : oneOver d = 1 / (d : ℚ) := by
  rw [oneOver, dif_neg h, Rat.mk'_eq_divInt, Rat.divInt_eq_div]
  norm_num

/-- C9: for every user id and every S3 key that does not begin with
`users/{user_id}/`, `delete_user_video` returns `False` and issues no
delete request to object storage. -/
theorem C9_delete_user_video_guard (env : S3.S3Env) (user_id s3_key : String)
    (h : strStartsWith s3_key ("users/" ++ user_id ++ "/") = false) :
    S3.delete_user_video env user_id s3_key = (false, []) := by
  simp [S3.delete_user_video, h]

/-- C9 witness: a caller acting for `alice` cannot delete an object stored
under `bob`'s prefix, even when storage would accept the delete. -/
theorem C9_delete_user_video_guard_witness :
    S3.delete_user_video ⟨fun _ => true⟩ "alice" "users/bob/renders/v.mp4" = (false, []) :=
  C9_delete_user_video_guard _ _ _ (by decide)

/-- C10: for every input event (including one with a missing or malformed
`input` field) and every environment, the serverless handler returns either
a success dictionary with status `completed` or a dictionary carrying an
`error` key; no exception propagates to the caller. -/
theorem C10_handler_always_returns (event : Option RpInput) (env : RpEnv) :
    (∃ msg, (Rp.handler event env).1 = .errorResp msg) ∨
    (∃ u n t k, (Rp.handler event env).1 =
      .completed "completed" "Render completed successfully" u n t k) := by
  simp only [Rp.handler]
  repeat' split
  all_goals first
    | exact Or.inl ⟨_, rfl⟩
    | exact Or.inr ⟨_, _, _, _, rfl⟩

/-- C3 counterexample: on the HTTP endpoint, when no Blender installation is
found the request returns an error, yet the materialized logo file created
for the request is left on disk — a temporary file survives an exit path,
so the claim is false as stated. -/
theorem C3_counterexample :
    (Server.render_logo reqOk serverEnvNoBlender).1 =
      .httpError 500 "Blender not found. Please install Blender." ∧
    (Server.render_logo reqOk serverEnvNoBlender).2.logoFileCreated = true ∧
    (Server.render_logo reqOk serverEnvNoBlender).2.logoFileRemoved = false := by
  decide

/-- C3 amended: the HTTP endpoint removes its temporary working directory on
every exit path, but removes the materialized logo file exactly on the paths
on which the render subprocess returns; the serverless handler never removes
its fixed shared output directory, and likewise unlinks its logo file
exactly when the render subprocess returns. -/
theorem C3_amended_cleanup (req : ServerRequest) (senv : ServerEnv)
    (event : Option RpInput) (renv : RpEnv) :
    ((Server.render_logo req senv).2.tempDirRemoved = true ∧
     (Server.render_logo req senv).2.logoFileRemoved =
       (Server.render_logo req senv).2.renderRunReturned) ∧
    ((Rp.handler event renv).2.outputDirRemoved = false ∧
     (Rp.handler event renv).2.logoFileRemoved =
       (Rp.handler event renv).2.renderRunReturned) := by
  constructor
  · constructor
    · rfl
    · simp only [Server.render_logo, Server.renderBody]
      repeat' split
      all_goals rfl
  · constructor
    · simp only [Rp.handler]
      repeat' split
      all_goals rfl
    · simp only [Rp.handler]
      repeat' split
      all_goals rfl

/-- C2 counterexample: on the serverless handler, a render timeout produces
the timeout error message, yet the temporary logo file materialized for the
request remains on disk — so the claim's "no temporary files remain" part is
false as stated. -/
theorem C2_counterexample :
    (Rp.handler (some inputOk) rpEnvTimeout).1 = .errorResp (timeoutMsg 7) ∧
    (Rp.handler (some inputOk) rpEnvTimeout).2.logoFileCreated = true ∧
    (Rp.handler (some inputOk) rpEnvTimeout).2.logoFileRemoved = false := by
  decide

/-- C2 amended: when the render subprocess exceeds its timeout, the HTTP
endpoint raises a 500 internal-server error embedding the timeout exception
text (and removes its working directory), and the serverless handler returns
the explicit timeout error; in both services the materialized logo file is
left on disk, and the serverless output directory is not removed. -/
theorem C2_amended_timeout
    (req : ServerRequest) (senv : ServerEnv) (s : String) (bs : Bytes) (bc : String)
    (input : RpInput) (renv : RpEnv) (l s2 : String) (bs2 : Bytes) (bc2 : String)
    (hmat : valid_materials.contains req.material = true)
    (hext : ¬(req.extrude_depth < oneOver 100 ∨ req.extrude_depth > 1))
    (hbev : ¬(req.bevel_depth < 0 ∨ req.bevel_depth > oneOver 10))
    (hstrip : stripDataUrl req.logo = some s)
    (hdec : senv.b64decode s = Except.ok bs)
    (hfind : Server.blender_paths.find? senv.pathExists = some bc)
    (hrun : senv.run (serverCmd bc senv req) (some 300) = RunOutcome.timeout)
    (hmat2 : valid_materials.contains input.material = true)
    (hlogo : input.logo = some l)
    (hstrip2 : stripDataUrl l = some s2)
    (hdec2 : renv.b64decode s2 = Except.ok bs2)
    (hfind2 : Rp.blender_paths.find? renv.pathExists = some bc2)
    (hrun2 : renv.run (rpCmd bc2 renv input) (some (rpTimeout renv)) = RunOutcome.timeout) :
    ((Server.render_logo req senv).1 =
       .httpError 500 ("Internal server error: " ++ timeoutExpiredStr (serverCmd bc senv req) 300) ∧
     (Server.render_logo req senv).2.tempDirRemoved = true ∧
     (Server.render_logo req senv).2.logoFileCreated = true ∧
     (Server.render_logo req senv).2.logoFileRemoved = false) ∧
    ((Rp.handler (some input) renv).1 = .errorResp (timeoutMsg (rpTimeout renv)) ∧
     (Rp.handler (some input) renv).2.logoFileCreated = true ∧
     (Rp.handler (some input) renv).2.logoFileRemoved = false ∧
     (Rp.handler (some input) renv).2.outputDirRemoved = false) := by
  have hm : req.material ∈ valid_materials := by simpa using hmat
  have hm2 : input.material ∈ valid_materials := by simpa using hmat2
  constructor
  · simp [Server.render_logo, Server.renderBody, hm, hext, hbev, hstrip, hdec, hfind, hrun]
  · simp [Rp.handler, hm2, hlogo, hstrip2, hdec2, hfind2, hrun2]

/-- C2 witness: the amended timeout behaviour instantiated at a concrete
request and environments in which both renders time out. -/
theorem C2_amended_timeout_witness :
    ((Server.render_logo reqOk serverEnvTimeout).1 =
       .httpError 500 ("Internal server error: " ++
         timeoutExpiredStr (serverCmd "/usr/local/bin/blender" serverEnvTimeout reqOk) 300) ∧
     (Server.render_logo reqOk serverEnvTimeout).2.tempDirRemoved = true ∧
     (Server.render_logo reqOk serverEnvTimeout).2.logoFileCreated = true ∧
     (Server.render_logo reqOk serverEnvTimeout).2.logoFileRemoved = false) ∧
    ((Rp.handler (some inputOk) rpEnvTimeout).1 = .errorResp (timeoutMsg (rpTimeout rpEnvTimeout)) ∧
     (Rp.handler (some inputOk) rpEnvTimeout).2.logoFileCreated = true ∧
     (Rp.handler (some inputOk) rpEnvTimeout).2.logoFileRemoved = false ∧
     (Rp.handler (some inputOk) rpEnvTimeout).2.outputDirRemoved = false) :=
  C2_amended_timeout reqOk serverEnvTimeout "aGk=" [137, 80, 78, 71] "/usr/local/bin/blender"
    inputOk rpEnvTimeout "aGk=" "aGk=" [137, 80, 78, 71] "/usr/local/bin/blender"
    (by decide) (by decide) (by decide) (by decide) rfl (by decide) rfl
    (by decide) rfl (by decide) rfl (by decide) rfl

/-- C4 counterexample: with a successful render and a failed upload, the
error response is the fixed string `S3 upload failed: boom` — identical for
two environments that differ only in where the local artifact lives — and the
cleanup deletes the artifact's directory before the response is sent.  The
error path therefore carries no reference to the locally produced artifact,
so the claim is false as stated. -/
theorem C4_counterexample :
    (Server.render_logo reqOk serverEnvUploadFailA).1 =
      .httpError 500 "S3 upload failed: boom" ∧
    (Server.render_logo reqOk serverEnvUploadFailB).1 =
      (Server.render_logo reqOk serverEnvUploadFailA).1 ∧
    (Server.render_logo reqOk serverEnvUploadFailA).2.tempDirRemoved = true := by
  decide

/-- C4 amended: when the render succeeds, the artifact is produced and the
upload fails, the HTTP endpoint returns a 500 error carrying only the upload
error message (no reference to the local artifact), and the temporary
directory holding the artifact is removed before the handler returns. -/
theorem C4_amended_upload_failure
    (req : ServerRequest) (senv : ServerEnv) (s : String) (bs : Bytes) (bc : String)
    (out err : String)
    (hmat : valid_materials.contains req.material = true)
    (hext : ¬(req.extrude_depth < oneOver 100 ∨ req.extrude_depth > 1))
    (hbev : ¬(req.bevel_depth < 0 ∨ req.bevel_depth > oneOver 10))
    (hstrip : stripDataUrl req.logo = some s)
    (hdec : senv.b64decode s = Except.ok bs)
    (hfind : Server.blender_paths.find? senv.pathExists = some bc)
    (hrun : senv.run (serverCmd bc senv req) (some 300) = RunOutcome.finished 0 out err)
    (hvid : senv.pathExists (pathJoin senv.tempDirName "rendered_animation.mp4") = true)
    (hs3 : senv.s3Configured = true)
    (hup : senv.upload.success = false) :
    (Server.render_logo req senv).1 =
      .httpError 500 ("S3 upload failed: " ++ senv.upload.error.getD "None") ∧
    (Server.render_logo req senv).2.tempDirRemoved = true := by
  have hm : req.material ∈ valid_materials := by simpa using hmat
  simp [Server.render_logo, Server.renderBody, hm, hext, hbev, hstrip, hdec, hfind,
        hrun, hvid, hs3, hup]

/-- C4 witness: the amended upload-failure behaviour instantiated in a
concrete environment whose upload fails with error `boom`. -/
theorem C4_amended_upload_failure_witness :
    (Server.render_logo reqOk serverEnvUploadFailA).1 =
      .httpError 500 ("S3 upload failed: " ++ serverEnvUploadFailA.upload.error.getD "None") ∧
    (Server.render_logo reqOk serverEnvUploadFailA).2.tempDirRemoved = true :=
  C4_amended_upload_failure reqOk serverEnvUploadFailA "aGk=" [137, 80, 78, 71]
    "/usr/local/bin/blender" "" ""
    (by decide) (by decide) (by decide) (by decide) rfl (by decide) rfl (by decide)
    rfl rfl

/-- C6: when the render subprocess exits with status 0 but the expected
output artifact is absent (the video file on the HTTP endpoint; any
`frame_*.png` on the serverless handler), each service fails with its
no-output-generated error. -/
theorem C6_missing_artifact
    (req : ServerRequest) (senv : ServerEnv) (s : String) (bs : Bytes) (bc : String)
    (out err : String)
    (input : RpInput) (renv : RpEnv) (l s2 : String) (bs2 : Bytes) (bc2 : String)
    (out2 err2 : String)
    (hmat : valid_materials.contains req.material = true)
    (hext : ¬(req.extrude_depth < oneOver 100 ∨ req.extrude_depth > 1))
    (hbev : ¬(req.bevel_depth < 0 ∨ req.bevel_depth > oneOver 10))
    (hstrip : stripDataUrl req.logo = some s)
    (hdec : senv.b64decode s = Except.ok bs)
    (hfind : Server.blender_paths.find? senv.pathExists = some bc)
    (hrun : senv.run (serverCmd bc senv req) (some 300) = RunOutcome.finished 0 out err)
    (hvid : senv.pathExists (pathJoin senv.tempDirName "rendered_animation.mp4") = false)
    (hmat2 : valid_materials.contains input.material = true)
    (hlogo : input.logo = some l)
    (hstrip2 : stripDataUrl l = some s2)
    (hdec2 : renv.b64decode s2 = Except.ok bs2)
    (hfind2 : Rp.blender_paths.find? renv.pathExists = some bc2)
    (hrun2 : renv.run (rpCmd bc2 renv input) (some (rpTimeout renv)) =
      RunOutcome.finished 0 out2 err2)
    (hframes : renv.outputDirListing1.filter isFrameFile = []) :
    (Server.render_logo req senv).1 = .httpError 500 "Video file not generated" ∧
    (Rp.handler (some input) renv).1 = .errorResp "No output files generated" := by
  have hm : req.material ∈ valid_materials := by simpa using hmat
  have hm2 : input.material ∈ valid_materials := by simpa using hmat2
  constructor
  · simp [Server.render_logo, Server.renderBody, hm, hext, hbev, hstrip, hdec, hfind,
          hrun, hvid]
  · simp [Rp.handler, hm2, hlogo, hstrip2, hdec2, hfind2, hrun2, hframes]

/-- C6 witness: the no-output behaviour instantiated in concrete
environments where the render exits 0 while producing nothing. -/
theorem C6_missing_artifact_witness :
    (Server.render_logo reqOk serverEnvNoVideo).1 =
      .httpError 500 "Video file not generated" ∧
    (Rp.handler (some inputOk) rpEnvNoFrames).1 =
      .errorResp "No output files generated" :=
  C6_missing_artifact reqOk serverEnvNoVideo "aGk=" [137, 80, 78, 71]
    "/usr/local/bin/blender" "" ""
    inputOk rpEnvNoFrames "aGk=" "aGk=" [137, 80, 78, 71] "/usr/local/bin/blender" "" ""
    (by decide) (by decide) (by decide) (by decide) rfl (by decide) rfl (by decide)
    (by decide) rfl (by decide) rfl (by decide) rfl (by decide)

/-- C1 counterexample: the serverless handler accepts an event whose
extrude depth 5 lies far outside [0.01, 1.0], starts the external render
process anyway, and reports the render failure rather than any
invalid-parameter error — so the claim is false for the serverless
handler. -/
theorem C1_counterexample :
    (5 : ℚ) > 1 ∧
    (Rp.handler (some { logo := some "aGk=", extrude_depth := 5 }) rpEnvRenderFail).2.procs ≠ [] ∧
    (Rp.handler (some { logo := some "aGk=", extrude_depth := 5 }) rpEnvRenderFail).1 =
      .errorResp "Render failed: boom" := by
  decide

/-- C1 amended: on the HTTP render endpoint, every request whose extrude
depth lies outside [0.01, 1.0] or whose bevel depth lies outside [0.0, 0.1]
is rejected with a 400 invalid-parameter error before any external process
is started; the serverless handler performs no such validation and invokes
the renderer whenever material validation, decoding and the Blender lookup
succeed, whatever the depth values. -/
theorem C1_amended_range_validation
    (req : ServerRequest) (senv : ServerEnv)
    (input : RpInput) (renv : RpEnv) (l s : String) (bs : Bytes) (bc : String)
    (hout : req.extrude_depth < oneOver 100 ∨ req.extrude_depth > 1 ∨
            req.bevel_depth < 0 ∨ req.bevel_depth > oneOver 10)
    (hmat2 : valid_materials.contains input.material = true)
    (hlogo : input.logo = some l)
    (hstrip : stripDataUrl l = some s)
    (hdec : renv.b64decode s = Except.ok bs)
    (hfind : Rp.blender_paths.find? renv.pathExists = some bc) :
    ((Server.render_logo req senv).2.procs = [] ∧
     ∃ msg, (Server.render_logo req senv).1 = .httpError 400 msg ∧
       (msg = "Invalid material. Choose from: " ++ toString valid_materials ∨
        msg = "Extrude depth must be between 0.01 and 1.0" ∨
        msg = "Bevel depth must be between 0.0 and 0.1")) ∧
    (Rp.handler (some input) renv).2.procs ≠ [] := by
  have hm2 : input.material ∈ valid_materials := by simpa using hmat2
  constructor
  · by_cases hm : req.material ∈ valid_materials
    · by_cases he : req.extrude_depth < oneOver 100 ∨ req.extrude_depth > 1
      · exact ⟨by simp [Server.render_logo, Server.renderBody, hm, he],
          "Extrude depth must be between 0.01 and 1.0",
          by simp [Server.render_logo, Server.renderBody, hm, he],
          Or.inr (Or.inl rfl)⟩
      · have hb : req.bevel_depth < 0 ∨ req.bevel_depth > oneOver 10 := by tauto
        exact ⟨by simp [Server.render_logo, Server.renderBody, hm, he, hb],
          "Bevel depth must be between 0.0 and 0.1",
          by simp [Server.render_logo, Server.renderBody, hm, he, hb],
          Or.inr (Or.inr rfl)⟩
    · exact ⟨by simp [Server.render_logo, Server.renderBody, hm],
        "Invalid material. Choose from: " ++ toString valid_materials,
        by simp [Server.render_logo, Server.renderBody, hm],
        Or.inl rfl⟩
  · simp only [Rp.handler, hm2]
    rw [hlogo]
    simp [hstrip, hdec, hfind]
    repeat' split
    all_goals simp

/-- C1 witness: the amended validation behaviour instantiated at an HTTP
request with extrude depth 5 and a well-formed serverless event. -/
theorem C1_amended_range_validation_witness :
    ((Server.render_logo { logo := "aGk=", extrude_depth := 5 } serverEnvOk).2.procs = [] ∧
     ∃ msg, (Server.render_logo { logo := "aGk=", extrude_depth := 5 } serverEnvOk).1 =
         .httpError 400 msg ∧
       (msg = "Invalid material. Choose from: " ++ toString valid_materials ∨
        msg = "Extrude depth must be between 0.01 and 1.0" ∨
        msg = "Bevel depth must be between 0.0 and 0.1")) ∧
    (Rp.handler (some inputOk) rpEnvOk).2.procs ≠ [] :=
  C1_amended_range_validation { logo := "aGk=", extrude_depth := 5 } serverEnvOk
    inputOk rpEnvOk "aGk=" "aGk=" [137, 80, 78, 71] "/usr/local/bin/blender"
    (Or.inr (Or.inl (by decide))) (by decide) rfl (by decide) rfl (by decide)

/-- C5: a request whose logo payload does not decode (the data-URL split
fails or `b64decode` raises; on the serverless handler also a missing logo)
is rejected with a structured `Invalid base64 image data` error when the
earlier parameter validations pass, and — unconditionally — no rendering
process is ever started for such a request, on both services. -/
theorem C5_invalid_base64
    (req : ServerRequest) (senv : ServerEnv) (input : RpInput) (renv : RpEnv)
    (hmat : valid_materials.contains req.material = true)
    (hext : ¬(req.extrude_depth < oneOver 100 ∨ req.extrude_depth > 1))
    (hbev : ¬(req.bevel_depth < 0 ∨ req.bevel_depth > oneOver 10))
    (hfail : decodeFails senv.b64decode req.logo = true)
    (hmat2 : valid_materials.contains input.material = true)
    (hfail2 : input.logo = none ∨
      ∃ l, input.logo = some l ∧ decodeFails renv.b64decode l = true) :
    ((∃ e, (Server.render_logo req senv).1 =
        .httpError 400 ("Invalid base64 image data: " ++ e)) ∧
     (Server.render_logo req senv).2.procs = []) ∧
    ((∃ e, (Rp.handler (some input) renv).1 =
        .errorResp ("Invalid base64 image data: " ++ e)) ∧
     (Rp.handler (some input) renv).2.procs = []) ∧
    (∀ (req2 : ServerRequest) (senv2 : ServerEnv),
      decodeFails senv2.b64decode req2.logo = true →
      (Server.render_logo req2 senv2).2.procs = []) ∧
    (∀ (input2 : RpInput) (renv2 : RpEnv),
      (input2.logo = none ∨
        ∃ l2, input2.logo = some l2 ∧ decodeFails renv2.b64decode l2 = true) →
      (Rp.handler (some input2) renv2).2.procs = []) := by
  have hm : req.material ∈ valid_materials := by simpa using hmat
  have hm2 : input.material ∈ valid_materials := by simpa using hmat2
  have serverProcs : ∀ (req2 : ServerRequest) (senv2 : ServerEnv),
      decodeFails senv2.b64decode req2.logo = true →
      (Server.render_logo req2 senv2).2.procs = [] := by
    intro req2 senv2 hf
    simp only [Server.render_logo, Server.renderBody]
    repeat' split
    all_goals first
      | rfl
      | (exfalso; simp_all [decodeFails])
  have rpProcs : ∀ (input2 : RpInput) (renv2 : RpEnv),
      (input2.logo = none ∨
        ∃ l2, input2.logo = some l2 ∧ decodeFails renv2.b64decode l2 = true) →
      (Rp.handler (some input2) renv2).2.procs = [] := by
    intro input2 renv2 hf
    simp only [Rp.handler]
    repeat' split
    all_goals first
      | rfl
      | (exfalso; rcases hf with h | ⟨l2, hl2, hfl⟩ <;> simp_all [decodeFails])
  refine ⟨⟨?_, serverProcs req senv hfail⟩, ⟨?_, rpProcs input renv hfail2⟩,
    serverProcs, rpProcs⟩
  · rcases hsplit : stripDataUrl req.logo with _ | s
    · refine ⟨"list index out of range", ?_⟩
      simp [Server.render_logo, Server.renderBody, hm, hext, hbev, hsplit]
    · rcases hdec : senv.b64decode s with e | bs
      · refine ⟨e, ?_⟩
        simp [Server.render_logo, Server.renderBody, hm, hext, hbev, hsplit, hdec]
      · exfalso
        simp [decodeFails, hsplit, hdec] at hfail
  · rcases hfail2 with hnone | ⟨l, hl, hf⟩
    · refine ⟨"NoneType object has no attribute startswith", ?_⟩
      simp [Rp.handler, hm2, hnone]
    · rcases hsplit : stripDataUrl l with _ | s
      · refine ⟨"list index out of range", ?_⟩
        rw [Rp.handler.eq_def]
        simp [hm2, hl, hsplit]
      · rcases hdec : renv.b64decode s with e | bs
        · refine ⟨e, ?_⟩
          rw [Rp.handler.eq_def]
          simp [hm2, hl, hsplit, hdec]
        · exfalso
          simp [decodeFails, hsplit, hdec] at hf

/-- C5 witness: the decoding rejection instantiated at concrete requests
whose payloads fail to decode. -/
theorem C5_invalid_base64_witness :
    ((∃ e, (Server.render_logo reqOk serverEnvBadB64).1 =
        .httpError 400 ("Invalid base64 image data: " ++ e)) ∧
     (Server.render_logo reqOk serverEnvBadB64).2.procs = []) ∧
    ((∃ e, (Rp.handler (some inputOk) rpEnvBadB64).1 =
        .errorResp ("Invalid base64 image data: " ++ e)) ∧
     (Rp.handler (some inputOk) rpEnvBadB64).2.procs = []) ∧
    (∀ (req2 : Server.ServerRequest) (senv2 : Server.ServerEnv),
      decodeFails senv2.b64decode req2.logo = true →
      (Server.render_logo req2 senv2).2.procs = []) ∧
    (∀ (input2 : Rp.RpInput) (renv2 : Rp.RpEnv),
      (input2.logo = none ∨
        ∃ l2, input2.logo = some l2 ∧ decodeFails renv2.b64decode l2 = true) →
      (Rp.handler (some input2) renv2).2.procs = []) :=
  C5_invalid_base64 reqOk serverEnvBadB64 inputOk rpEnvBadB64
    (by decide) (by decide) (by decide) (by decide) (by decide)
    (Or.inr ⟨"aGk=", rfl, by decide⟩)

/-- The script path passed by `server.py` can never collide with the `--`
separator, whatever the working directory is. -/
theorem pathJoin_script_ne_dashdash (cwd : String) :
    pathJoin cwd "render_logo.py" ≠ "--" := by
  obtain ⟨l⟩ := cwd
  intro h
  have hd : (l ++ ['/']) ++ "render_logo.py".data = "--".data :=
    congrArg String.data h
  have hlen := congrArg List.length hd
  have h14 : ("render_logo.py".data).length = 14 := rfl
  have h2 : ("--".data).length = 2 := rfl
  simp [List.length_append, h14, h2] at hlen

/-- Slicing the post-`--` arguments out of the HTTP endpoint's Blender
command recovers exactly the five payload arguments, in order. -/
theorem afterDashDash_serverCmd (bc : String) (env : ServerEnv) (req : ServerRequest)
    (hbc : bc ≠ "--") :
    afterDashDash (serverCmd bc env req) =
      [env.logoFileName, env.tempDirName, req.material,
       toString req.extrude_depth, toString req.bevel_depth] := by
  have hscript := pathJoin_script_ne_dashdash env.cwd
  simp [serverCmd, afterDashDash, List.dropWhile, hbc, hscript]

/-- Slicing the post-`--` arguments out of the serverless handler's Blender
command recovers exactly the five payload arguments, in order. -/
theorem afterDashDash_rpCmd (bc : String) (env : RpEnv) (input : RpInput)
    (hbc : bc ≠ "--") :
    afterDashDash (rpCmd bc env input) =
      [env.logoFileName, "/tmp/output", input.material,
       toString input.extrude_depth, toString input.bevel_depth] := by
  simp [rpCmd, afterDashDash, List.dropWhile, hbc]

/-- C7 counterexample: the HTTP endpoint runs Blender under the hard-coded
timeout of 300 seconds even though the environment supplies
`BLENDER_TIMEOUT_SECONDS = 7`, so the environment-supplied-timeout part of
the claim is false for the HTTP endpoint. -/
theorem C7_counterexample :
    serverEnvOk.getenvBlenderTimeout = some 7 ∧
    (Server.render_logo reqOk serverEnvOk).2.procs.map Proc.timeoutSec = [some 300] := by
  decide

/-- C7 amended: every Blender invocation passes the positional arguments in
the order input path, output directory, material (validated against the
fixed preset set), extrusion depth, bevel depth, with no transparency flag
(so the renderer's argument parser reads back exactly these values and
defaults to opaque); the subprocess timeout is the environment-supplied
`BLENDER_TIMEOUT_SECONDS` (default 1200) on the serverless handler but the
hard-coded 300 seconds on the HTTP endpoint. -/
theorem C7_amended_invocation_contract
    (req : ServerRequest) (senv : ServerEnv) (s : String) (bs : Bytes) (bc : String)
    (input : RpInput) (renv : RpEnv) (l s2 : String) (bs2 : Bytes) (bc2 : String)
    (hmat : valid_materials.contains req.material = true)
    (hext : ¬(req.extrude_depth < oneOver 100 ∨ req.extrude_depth > 1))
    (hbev : ¬(req.bevel_depth < 0 ∨ req.bevel_depth > oneOver 10))
    (hstrip : stripDataUrl req.logo = some s)
    (hdec : senv.b64decode s = Except.ok bs)
    (hfind : Server.blender_paths.find? senv.pathExists = some bc)
    (hmat2 : valid_materials.contains input.material = true)
    (hlogo : input.logo = some l)
    (hstrip2 : stripDataUrl l = some s2)
    (hdec2 : renv.b64decode s2 = Except.ok bs2)
    (hfind2 : Rp.blender_paths.find? renv.pathExists = some bc2) :
    ((Server.render_logo req senv).2.procs = [⟨serverCmd bc senv req, some 300⟩] ∧
     Script.parse_args (afterDashDash (serverCmd bc senv req)) =
       some (senv.logoFileName, senv.tempDirName, strToLower req.material,
             toString req.extrude_depth, toString req.bevel_depth, "opaque") ∧
     req.material ∈ valid_materials) ∧
    ((Rp.handler (some input) renv).2.procs.head? =
       some ⟨rpCmd bc2 renv input, some (rpTimeout renv)⟩ ∧
     Script.parse_args (afterDashDash (rpCmd bc2 renv input)) =
       some (renv.logoFileName, "/tmp/output", strToLower input.material,
             toString input.extrude_depth, toString input.bevel_depth, "opaque") ∧
     input.material ∈ valid_materials) := by
  have hm : req.material ∈ valid_materials := by simpa using hmat
  have hm2 : input.material ∈ valid_materials := by simpa using hmat2
  have hbc : bc ≠ "--" := by
    have hall : ∀ x ∈ Server.blender_paths, x ≠ "--" := by decide
    exact hall bc (List.mem_of_find?_eq_some hfind)
  have hbc2 : bc2 ≠ "--" := by
    have hall : ∀ x ∈ Rp.blender_paths, x ≠ "--" := by decide
    exact hall bc2 (List.mem_of_find?_eq_some hfind2)
  refine ⟨⟨?_, ?_, hm⟩, ⟨?_, ?_, hm2⟩⟩
  · simp only [Server.render_logo, Server.renderBody]
    simp [hm, hext, hbev, hstrip, hdec, hfind]
    repeat' split
    all_goals rfl
  · rw [afterDashDash_serverCmd bc senv req hbc]
    simp [Script.parse_args]
  · rw [Rp.handler.eq_def]
    simp [hm2, hlogo, hstrip2, hdec2, hfind2]
    repeat' split
    all_goals rfl
  · rw [afterDashDash_rpCmd bc2 renv input hbc2]
    simp [Script.parse_args]

/-- C7 witness: the invocation contract instantiated at concrete
environments (Blender at `/usr/local/bin/blender`, serverless timeout 7
from the environment). -/
theorem C7_amended_invocation_contract_witness :
    ((Server.render_logo reqOk serverEnvOk).2.procs =
       [⟨serverCmd "/usr/local/bin/blender" serverEnvOk reqOk, some 300⟩] ∧
     Script.parse_args (afterDashDash (serverCmd "/usr/local/bin/blender" serverEnvOk reqOk)) =
       some (serverEnvOk.logoFileName, serverEnvOk.tempDirName, strToLower reqOk.material,
             toString reqOk.extrude_depth, toString reqOk.bevel_depth, "opaque") ∧
     reqOk.material ∈ valid_materials) ∧
    ((Rp.handler (some inputOk) rpEnvOk).2.procs.head? =
       some ⟨rpCmd "/usr/local/bin/blender" rpEnvOk inputOk, some (rpTimeout rpEnvOk)⟩ ∧
     Script.parse_args (afterDashDash (rpCmd "/usr/local/bin/blender" rpEnvOk inputOk)) =
       some (rpEnvOk.logoFileName, "/tmp/output", strToLower inputOk.material,
             toString inputOk.extrude_depth, toString inputOk.bevel_depth, "opaque") ∧
     inputOk.material ∈ valid_materials) :=
  C7_amended_invocation_contract reqOk serverEnvOk "aGk=" [137, 80, 78, 71]
    "/usr/local/bin/blender" inputOk rpEnvOk "aGk=" "aGk=" [137, 80, 78, 71]
    "/usr/local/bin/blender"
    (by decide) (by decide) (by decide) (by decide) rfl (by decide)
    (by decide) rfl (by decide) rfl (by decide)

/-- A conversion-attempt process (timeout 300) is counted by the filter;
probe and verify processes (no timeout) are not. -/
theorem conv_proc_counted (c : List String) :
    ((Proc.mk c (some 300)).timeoutSec == some (300 : Nat)) = true := rfl

/-- Processes run without a timeout are not counted as conversion attempts. -/
theorem untimed_proc_not_counted (c : List String) :
    ((Proc.mk c none).timeoutSec == some (300 : Nat)) = false := rfl

/-- The retry loop of `convert_png_to_webm` issues at most one conversion
attempt per command variant beyond those already accumulated. -/
theorem tryMethods_conversion_bound (env : FfmpegEnv) (op : String) :
    ∀ (cmds : List (List String)) (acc : List Proc),
      ((Script.tryMethods env op cmds acc).2.filter
        (fun p => p.timeoutSec == some 300)).length ≤
      (acc.filter (fun p => p.timeoutSec == some 300)).length + cmds.length := by
  intro cmds
  induction cmds with
  | nil =>
    intro acc
    simp [Script.tryMethods]
  | cons c rest ih =>
    intro acc
    simp only [Script.tryMethods]
    repeat' split
    all_goals first
      | (refine le_trans (ih _) ?_
         simp [List.filter_append, conv_proc_counted, untimed_proc_not_counted]
         try omega)
      | (simp [List.filter_append, conv_proc_counted, untimed_proc_not_counted]
         try omega)

/-- The two Blender argument vectors can never coincide with the ffmpeg
argument vector of the serverless handler (they differ at index 1). -/
theorem rpCmd_ne_rpFfmpegCmd (bc : String) (env : RpEnv) (input : RpInput) :
    rpCmd bc env input ≠ rpFfmpegCmd := by
  intro h
  have h1 := congrArg (fun l => l[1]?) h
  simp [Rp.rpCmd, Rp.rpFfmpegCmd] at h1

/-- C8 counterexample: in an environment where every conversion attempt
fails, `convert_png_to_webm` issues three conversion subprocess invocations
for the same transcode before surfacing the failure — the failed transcode
is retried automatically, so the claim is false as stated. -/
theorem C8_counterexample :
    (Script.convert_png_to_webm fenvAllFail "/tmp/output" 30).1 = false ∧
    ((Script.convert_png_to_webm fenvAllFail "/tmp/output" 30).2.filter
      (fun p => p.timeoutSec == some 300)).length = 3 := by
  decide

/-- C8 amended: the orchestration layers never retry — the HTTP endpoint
starts at most one external process per request and the serverless handler
at most two (one render, one transcode, mutually distinct); inside the
render script, however, a failed transparent-WEBM transcode is retried with
up to three ffmpeg command variants before failure is surfaced. -/
theorem C8_amended_no_retry_except_webm
    (req : ServerRequest) (senv : ServerEnv) (event : Option RpInput) (renv : RpEnv)
    (fenv : FfmpegEnv) (output_dir : String) (fps : Nat) :
    (Server.render_logo req senv).2.procs.length ≤ 1 ∧
    ((Rp.handler event renv).2.procs.length ≤ 2 ∧
     (Rp.handler event renv).2.procs.Nodup) ∧
    ((Script.convert_png_to_webm fenv output_dir fps).2.filter
      (fun p => p.timeoutSec == some 300)).length ≤ 3 := by
  refine ⟨?_, ⟨?_, ?_⟩, ?_⟩
  · simp only [Server.render_logo, Server.renderBody]
    repeat' split
    all_goals simp
  · simp only [Rp.handler]
    repeat' split
    all_goals simp
  · simp only [Rp.handler]
    repeat' split
    all_goals simp [List.nodup_cons, rpCmd_ne_rpFfmpegCmd]
  · simp only [Script.convert_png_to_webm]
    repeat' split
    · simp [untimed_proc_not_counted]
    · simp [untimed_proc_not_counted]
    · refine le_trans (tryMethods_conversion_bound fenv _ _ _) ?_
      simp [untimed_proc_not_counted, Script.webmCmds]

end BlenderRender.Claims
